import Mathlib

/-!
Verification of the Sarah-HR fact-constrained interview engine
(`backend/app/core/fact_contract.py`, `persona_enforcer.py`, `interview_agent.py`
as laid out in the repository's implementation plan).

The Python code is shallowly embedded: strings are Lean `String`s (lists of
characters), the two regular-expression scans of `FactVerifier.verify_response`
are embedded as explicit left-to-right scanners over the modelled alphabet
(ASCII letters/digits plus the Arabic letter block actually used by the code's
token lists), `hashlib.sha256(...).hexdigest()` is embedded as a full SHA-256
implementation over byte lists, `json.dumps(..., sort_keys=True)` is embedded
as the concrete serialized string with the keys in their sorted order, and the
two external stochastic services (the LLM completion call and the `langdetect`
fallback) are oracle parameters.

All recursion is structural (fuel-based where the Python loop consumes more
than one character per step), so every definition evaluates inside the kernel.
-/

set_option maxRecDepth 20000

namespace SarahHR

/-! ## Character classes of the modelled alphabet

Python's `re` module with `str` patterns uses Unicode word/space/digit classes.
The utterances manipulated by this code consist of ASCII letters, ASCII digits,
underscore, ASCII whitespace, basic punctuation and Arabic letters in the range
U+0621..U+064A (the range that covers every Arabic token the source mentions).
The classes below are exact on that alphabet. -/

/-- Models `\w` of Python `re` on the modelled alphabet: ASCII letters,
ASCII digits, underscore, and Arabic letters U+0621..U+064A. -/
def isWordChar (c : Char) : Bool :=
  c.isAlpha || c.isDigit || c == '_' || (0x0621 ≤ c.toNat && c.toNat ≤ 0x064A)

/-- Models `\s` of Python `re`, restricted to ASCII whitespace. -/
def isSpaceChar (c : Char) : Bool :=
  c == ' ' || c == '\t' || c == '\n' || c == '\r'

/-- An ASCII letter (used by the pattern `[a-zA-Z]`). -/
def isAsciiLetter (c : Char) : Bool := c.isAlpha

/-! ## Python string primitives -/

/-- Recursion core of Python `str.replace`: replaces every non-overlapping
occurrence of `old` (nonempty for every call site in the source) left to
right.  `fuel` bounds the recursion; callers pass the length of `s`, which
suffices because every step consumes at least one character of `s`. -/
def replaceAllAux (old new : List Char) : Nat → List Char → List Char
  | 0, s => s
  | _ + 1, [] => []
  | fuel + 1, c :: rest =>
    if old.isPrefixOf (c :: rest) then
      new ++ replaceAllAux old new fuel ((c :: rest).drop old.length)
    else
      c :: replaceAllAux old new fuel rest

/-- Python `s.replace(old, new)`. -/
def pyReplace (s old new : String) : String :=
  ⟨replaceAllAux old.data new.data s.data.length s.data⟩

/-- Whether `pat` occurs as a contiguous sublist of `s`. -/
def containsSubAux (pat : List Char) : List Char → Bool
  | [] => pat.isPrefixOf ([] : List Char)
  | c :: rest => pat.isPrefixOf (c :: rest) || containsSubAux pat rest

/-- Python `pat in s` (substring containment). -/
def pyContains (s pat : String) : Bool := containsSubAux pat.data s.data

/-- Decimal value of a digit string (Python `int(...)` on the digit-only
strings produced by the `(\d+)` capture group). -/
def digitsToNat (s : String) : Nat :=
  s.data.foldl (fun a c => 10 * a + (c.toNat - 48)) 0

/-! ## SHA-256 (`hashlib.sha256(...).hexdigest()`)

Standard FIPS 180-4 SHA-256 over a list of bytes, producing the lowercase hex
digest.  Words are `Nat`s reduced mod 2^32 at every step. -/

/-- The word modulus 2^32. -/
def M32 : Nat := 4294967296

/-- Rotate a 32-bit word right by `n`. -/
def rotr (n x : Nat) : Nat := ((x >>> n) ||| (x <<< (32 - n))) % M32

/-- Logical right shift. -/
def shr (n x : Nat) : Nat := x >>> n

def bigSigma0 (x : Nat) : Nat := rotr 2 x ^^^ rotr 13 x ^^^ rotr 22 x

def bigSigma1 (x : Nat) : Nat := rotr 6 x ^^^ rotr 11 x ^^^ rotr 25 x

def smallSigma0 (x : Nat) : Nat := rotr 7 x ^^^ rotr 18 x ^^^ shr 3 x

def smallSigma1 (x : Nat) : Nat := rotr 17 x ^^^ rotr 19 x ^^^ shr 10 x

/-- The choice function `Ch(x,y,z)`; on 32 bits, not-`x` is `x ^^^ 0xFFFFFFFF`. -/
def chF (x y z : Nat) : Nat := (x &&& y) ^^^ ((x ^^^ 4294967295) &&& z)

def majF (x y z : Nat) : Nat := (x &&& y) ^^^ (x &&& z) ^^^ (y &&& z)

/-- The 64 SHA-256 round constants. -/
def K : List Nat := [
  1116352408, 1899447441, 3049323471, 3921009573, 961987163,
  1508970993, 2453635748, 2870763221, 3624381080, 310598401,
  607225278, 1426881987, 1925078388, 2162078206, 2614888103,
  3248222580, 3835390401, 4022224774, 264347078, 604807628,
  770255983, 1249150122, 1555081692, 1996064986, 2554220882,
  2821834349, 2952996808, 3210313671, 3336571891, 3584528711,
  113926993, 338241895, 666307205, 773529912, 1294757372,
  1396182291, 1695183700, 1986661051, 2177026350, 2456956037,
  2730485921, 2820302411, 3259730800, 3345764771, 3516065817,
  3600352804, 4094571909, 275423344, 430227734, 506948616,
  659060556, 883997877, 958139571, 1322822218, 1537002063,
  1747873779, 1955562222, 2024104815, 2227730452, 2361852424,
  2428436474, 2756734187, 3204031479, 3329325298]

/-- The SHA-256 initial hash value. -/
def H0 : List Nat :=
  [1779033703, 3144134277, 1013904242, 2773480762,
   1359893119, 2600822924, 528734635, 1541459225]

/-- The `k` big-endian bytes of `n`. -/
def beBytes : Nat → Nat → List Nat
  | 0, _ => []
  | k + 1, n => beBytes k (n / 256) ++ [n % 256]

/-- SHA-256 padding: append `0x80`, zero bytes to 56 mod 64, then the bit
length as 8 big-endian bytes. -/
def padMsg (m : List Nat) : List Nat :=
  let len := m.length
  let zeros := (119 - len % 64) % 64
  m ++ [0x80] ++ List.replicate zeros 0 ++ beBytes 8 (8 * len)

/-- Group bytes into big-endian 32-bit words. -/
def bytesToWords : List Nat → List Nat
  | b0 :: b1 :: b2 :: b3 :: rest => (((b0 * 256 + b1) * 256 + b2) * 256 + b3) :: bytesToWords rest
  | _ => []

/-- Message-schedule extension: run with fuel 48 to extend 16 words to 64. -/
def sched : Nat → List Nat → List Nat
  | 0, w => w
  | fuel + 1, w =>
    let t := w.length
    let wt := (smallSigma1 (w.getD (t - 2) 0) + w.getD (t - 7) 0 +
               smallSigma0 (w.getD (t - 15) 0) + w.getD (t - 16) 0) % M32
    sched fuel (w ++ [wt])

/-- One compression round on the state `[a,b,c,d,e,f,g,h]`. -/
def roundStep (st : List Nat) (k w : Nat) : List Nat :=
  match st with
  | [a, b, c, d, e, f, g, h] =>
    let t1 := (h + bigSigma1 e + chF e f g + k + w) % M32
    let t2 := (bigSigma0 a + majF a b c) % M32
    [(t1 + t2) % M32, a, b, c, (d + t1) % M32, e, f, g]
  | other => other

/-- Compress one 16-word block into the running hash. -/
def compress (h : List Nat) (block : List Nat) : List Nat :=
  let w := sched 48 block
  let st := (List.zip K w).foldl (fun s kw => roundStep s kw.1 kw.2) h
  (List.zip h st).map (fun p => (p.1 + p.2) % M32)

/-- Fold `compress` over the 16-word blocks of the padded message; `fuel`
bounds the recursion (one unit per block is consumed). -/
def sha256Blocks : Nat → List Nat → List Nat → List Nat
  | 0, h, _ => h
  | _ + 1, h, [] => h
  | fuel + 1, h, ws => sha256Blocks fuel (compress h (ws.take 16)) (ws.drop 16)

/-- Lowercase hex digit. -/
def hexDigit (n : Nat) : Char := if n < 10 then Char.ofNat (48 + n) else Char.ofNat (87 + n)

/-- The `k` big-endian hex digits of `n`. -/
def toHexBE : Nat → Nat → List Char
  | 0, _ => []
  | k + 1, n => toHexBE k (n / 16) ++ [hexDigit (n % 16)]

/-- Models `hashlib.sha256(bytes).hexdigest()`. -/
def sha256hex (msg : List Nat) : String :=
  let ws := bytesToWords (padMsg msg)
  let hs := sha256Blocks (ws.length + 1) H0 ws
  ⟨hs.foldl (fun acc h => acc ++ toHexBE 8 h) []⟩

/-- Python `str.encode()` on the ASCII strings fed to the hash (every
character of the serialized dictionaries is ASCII, where UTF-8 is the
identity on code points). -/
def asciiBytes (s : String) : List Nat := s.data.map Char.toNat

/-! ## The `CandidateContract` model (`fact_contract.py`)

The pydantic model with `frozen = True`.  `contract_created_at` (a wall-clock
timestamp never read by any logic under verification) is modelled as a `Nat`.
The `contract_hash` validator computes, when the field is not explicitly
given, the truncated SHA-256 of `json.dumps(data, sort_keys=True)` over the
four core scalar fields. -/

structure CandidateContract where
  candidate_id : String
  interview_id : String
  full_name : String
  target_role : String
  years_of_experience : Nat
  expected_salary : Nat
  has_field_experience : Bool
  proximity_to_branch : Option String
  can_start_immediately : Option String
  academic_status : Option String
  contract_created_at : Nat
  contract_hash : String
deriving DecidableEq

/-- JSON rendering of a string value (the identifiers used contain no
characters that `json.dumps` would escape). -/
def jsonStr (s : String) : String := "\"" ++ s ++ "\""

/-- JSON rendering of a Python bool. -/
def jsonBool (b : Bool) : String := if b then "true" else "false"

/-- JSON rendering of an `Optional[str]` (Python `None` renders as `null`). -/
def jsonOptStr : Option String → String
  | none => "null"
  | some s => jsonStr s

/-- Models `json.dumps(data, sort_keys=True)` for the dictionary built inside the
`compute_hash` validator: keys `candidate_id`, `years_of_experience`,
`expected_salary`, `has_field_experience`, emitted in sorted key order with
the default `", "` / `": "` separators. -/
def constructionSerialization (candidate_id : String) (years salary : Nat)
    (hfe : Bool) : String :=
  "\x7b\"candidate_id\": " ++ jsonStr candidate_id ++
  ", \"expected_salary\": " ++ toString salary ++
  ", \"has_field_experience\": " ++ jsonBool hfe ++
  ", \"years_of_experience\": " ++ toString years ++ "\x7d"

/-- The `compute_hash` validator body: truncated (12 hex characters) SHA-256
of the sorted-key serialization of the four core fields. -/
def compute_hash (candidate_id : String) (years salary : Nat) (hfe : Bool) : String :=
  ⟨((sha256hex (asciiBytes
      (constructionSerialization candidate_id years salary hfe))).data.take 12)⟩

/-- Models `json.dumps(temp_dict, sort_keys=True)` for the dictionary built inside
`verify_integrity`: `self.dict()` minus `contract_hash` and
`contract_created_at`, i.e. all ten remaining fields, in sorted key order. -/
def verifySerialization (c : CandidateContract) : String :=
  "\x7b\"academic_status\": " ++ jsonOptStr c.academic_status ++
  ", \"can_start_immediately\": " ++ jsonOptStr c.can_start_immediately ++
  ", \"candidate_id\": " ++ jsonStr c.candidate_id ++
  ", \"expected_salary\": " ++ toString c.expected_salary ++
  ", \"full_name\": " ++ jsonStr c.full_name ++
  ", \"has_field_experience\": " ++ jsonBool c.has_field_experience ++
  ", \"interview_id\": " ++ jsonStr c.interview_id ++
  ", \"proximity_to_branch\": " ++ jsonOptStr c.proximity_to_branch ++
  ", \"target_role\": " ++ jsonStr c.target_role ++
  ", \"years_of_experience\": " ++ toString c.years_of_experience ++ "\x7d"

/-- The digest `verify_integrity` recomputes from the contract's current
field values. -/
def verifyDigest (c : CandidateContract) : String :=
  ⟨(sha256hex (asciiBytes (verifySerialization c))).data.take 12⟩

/-- Models `CandidateContract.verify_integrity`: compare the stored
`contract_hash` with the recomputed truncated digest. -/
def verify_integrity (c : CandidateContract) : Bool :=
  c.contract_hash == verifyDigest c

/-- The pydantic constructor: all fields set by the caller, with the
`contract_hash` validator filling the digest when the field is left at its
default `""` (`if not v` in the source keeps a non-empty explicit value). -/
def mkContract (candidate_id interview_id full_name target_role : String)
    (years salary : Nat) (hfe : Bool)
    (prox imm acad : Option String) (createdAt : Nat) (hashArg : String) :
    CandidateContract :=
  { candidate_id := candidate_id
    interview_id := interview_id
    full_name := full_name
    target_role := target_role
    years_of_experience := years
    expected_salary := salary
    has_field_experience := hfe
    proximity_to_branch := prox
    can_start_immediately := imm
    academic_status := acad
    contract_created_at := createdAt
    contract_hash :=
      if hashArg == "" then compute_hash candidate_id years salary hfe else hashArg }

/-- A representative contract constructed from a declared-facts record the
way `FactContractLoader.load_contract` does it (no explicit hash argument,
so the validator computes the digest). -/
def contractC1 : CandidateContract :=
  mkContract "c1" "i1" "Ali" "baker" 5 300 true none none none 0 ""

/-! ## The `FactVerifier` model (`fact_contract.py`)

`verify_response` runs two `re.findall` scans:
`r'\b(\d+)\s*(سنة|سنوات|سنين|year|years)'` for duration mentions and
`r'(\d+)\s*(دينار|JOD|جنيه)'` for currency mentions (note: no `\b` in the
second).  Both are embedded as an explicit left-to-right scanner that is
exact on the modelled alphabet: Python's scan attempts a match at each
position, `(\d+)` greedily takes the maximal digit run, `\s*` the maximal
whitespace run (no backtracking can help, because no alternative starts
with whitespace or a digit), the alternation tries the unit literals in
order (so `"5 years"` captures unit `"year"`), and scanning resumes after
the end of a successful match. -/

/-- The duration-unit alternation, in the pattern's order. -/
def DURATION_UNITS : List String := ["سنة", "سنوات", "سنين", "year", "years"]

/-- The currency-unit alternation, in the pattern's order. -/
def SALARY_UNITS : List String := ["دينار", "JOD", "جنيه"]

/-- First unit of the alternation that literally matches at the head of
`s` (regex alternation is leftmost-first, not longest-match). -/
def findUnit (units : List String) (s : List Char) : Option String :=
  units.find? (fun u => u.data.isPrefixOf s)

/-- One attempted match of `(\d+)\s*(alts)` at the head of `s` (whose first
character the caller has checked to be a digit): the maximal digit run, the
maximal whitespace run, then the first matching unit.  Returns the two
capture groups and the rest of the input after the match. -/
def tryNumUnit (units : List String) (s : List Char) : Option (String × String × List Char) :=
  let ds := s.takeWhile Char.isDigit
  let r1 := (s.dropWhile Char.isDigit).dropWhile isSpaceChar
  match findUnit units r1 with
  | some u => some (⟨ds⟩, u, r1.drop u.data.length)
  | none => none

/-- The scanning loop of `re.findall` for `\b?(\d+)\s*(alts)`: `useB` says
whether the pattern carries the leading `\b`; `prevW` tracks whether the
previous character was a word character (for the boundary test); `fuel`
bounds the recursion (each step consumes at least one character).  A match
is attempted at every digit position whose boundary condition holds;
scanning resumes after the end of a successful match (every unit ends in a
word character, so `prevW` is true there). -/
def reScanAux (useB : Bool) (units : List String) : Nat → Bool → List Char → List (String × String)
  | 0, _, _ => []
  | _ + 1, _, [] => []
  | fuel + 1, prevW, c :: rest =>
    if c.isDigit && (!useB || !prevW) then
      match tryNumUnit units (c :: rest) with
      | some (n, u, rem) => (n, u) :: reScanAux useB units fuel true rem
      | none => reScanAux useB units fuel (isWordChar c) rest
    else
      reScanAux useB units fuel (isWordChar c) rest

/-- Models `re.findall` for the two number-next-to-unit patterns. -/
def reScan (useB : Bool) (units : List String) (s : String) : List (String × String) :=
  reScanAux useB units s.data.length false s.data

/-- The tuple `(is_valid, error_message, corrected_response)` returned by
`FactVerifier.verify_response`. -/
structure VerifyResult where
  valid : Bool
  error : Option String
  corrected : Option String
deriving DecidableEq

/-- The branch condition of the experience loop: `0 < num_int < 50` and
`num_int != contract.years_of_experience`. -/
def expMismatch (years : Nat) (p : String × String) : Bool :=
  let n := digitsToNat p.1
  decide (0 < n ∧ n < 50 ∧ n ≠ years)

/-- The `for num, unit in numbers:` loop of `verify_response`: return on
the first duration mention that mismatches the contract, auto-correcting by
`llm_response.replace(f"{num} {unit}", f"{years} {unit}")`. -/
def expLoop (years : Nat) (resp : String) : List (String × String) → Option VerifyResult
  | [] => none
  | (num, unit) :: rest =>
    if expMismatch years (num, unit) then
      some { valid := false
             error := some ("Hallucination: LLM stated " ++ toString (digitsToNat num) ++
                            " years, DB says " ++ toString years)
             corrected := some (pyReplace resp (num ++ " " ++ unit)
                                 (toString years ++ " " ++ unit)) }
    else expLoop years resp rest

/-- The branch condition of the salary loop: `int(amount) != expected_salary`
and `abs(int(amount) - expected_salary) > 100`. -/
def salFlag (salary : Nat) (p : String × String) : Bool :=
  let a := digitsToNat p.1
  decide (a ≠ salary ∧ ((a : Int) - (salary : Int)).natAbs > 100)

/-- The `for amount, currency in salary_matches:` loop of `verify_response`:
return on the first flagged currency mention, auto-correcting by
`llm_response.replace(f"{amount} {currency}", f"{salary} {currency}")`;
falling through returns `(True, None, None)`. -/
def salLoop (salary : Nat) (resp : String) : List (String × String) → VerifyResult
  | [] => { valid := true, error := none, corrected := none }
  | (amount, cur) :: rest =>
    if salFlag salary (amount, cur) then
      { valid := false
        error := some ("Potential salary hallucination: stated " ++ amount ++
                       ", DB says " ++ toString salary)
        corrected := some (pyReplace resp (amount ++ " " ++ cur)
                            (toString salary ++ " " ++ cur)) }
    else salLoop salary resp rest

/-- Models `FactVerifier.verify_response`: the duration scan runs first and its
first mismatch returns immediately; only if it falls through does the
salary scan run. -/
def verify_response (c : CandidateContract) (resp : String) : VerifyResult :=
  match expLoop c.years_of_experience resp (reScan true DURATION_UNITS resp) with
  | some r => r
  | none => salLoop c.expected_salary resp (reScan false SALARY_UNITS resp)

/-- A contract declaring 5 years of experience and an expected salary of
300 (the hash plays no role in verification and is left empty). -/
def contractC5 : CandidateContract :=
  { candidate_id := "c1", interview_id := "i1", full_name := "Ali"
    target_role := "baker", years_of_experience := 5, expected_salary := 300
    has_field_experience := true, proximity_to_branch := none
    can_start_immediately := none, academic_status := none
    contract_created_at := 0, contract_hash := "" }

/-- A contract declaring 7 years of experience (salary 300). -/
def contractY7 : CandidateContract :=
  { contractC5 with years_of_experience := 7 }

/-! ## The `PersonaEnforcer` model (`persona_enforcer.py`)

`_detect_english` checks the five `ENGLISH_PATTERNS` with `re.IGNORECASE`
and, if none fires, falls back to `langdetect.detect` on the text with the
Arabic block and whitespace removed (only when more than 10 characters
remain).  On the modelled alphabet, patterns 1–4 — `\b(w1|w2|…)\b` over
word-character literals — match iff some maximal word-character run of the
text equals one of the listed words case-insensitively, and pattern 5 —
`\b[a-zA-Z]{4,}\b` — matches iff some maximal run consists of at least 4
ASCII letters (a `\b` cannot occur inside a run, so a literal of word
characters flanked by `\b` on both sides is exactly a maximal run).  The
statistical `langdetect` call is an external service, modelled as an
oracle `ld : String → Bool` (`true` = "detected as English"; a
`LangDetectException` is `false`). -/

/-- The word alternatives of `ENGLISH_PATTERNS` 1–4, with the `s?`
optional-suffix groups expanded. -/
def ENGLISH_STOPWORDS : List String :=
  ["the", "and", "is", "are", "was", "were", "have", "has", "had",
   "this", "that", "these", "those", "what", "when", "where", "why", "how",
   "experience", "salary", "job", "work", "candidate", "interview",
   "year", "years", "month", "months", "day", "days", "time", "because", "actually"]

/-- The maximal word-character runs of a character list (`acc` carries the
current run, reversed). -/
def wordRunsAux : List Char → List Char → List (List Char)
  | acc, [] => if acc.isEmpty then [] else [acc.reverse]
  | acc, c :: rest =>
    if isWordChar c then wordRunsAux (c :: acc) rest
    else if acc.isEmpty then wordRunsAux [] rest
    else acc.reverse :: wordRunsAux [] rest

/-- The maximal word-character runs of a string. -/
def wordRuns (s : String) : List (List Char) :=
  wordRunsAux [] s.data

/-- Whether some `ENGLISH_PATTERNS` regex matches: a maximal word run that
case-insensitively equals a listed word (patterns 1–4), or a maximal word
run of 4 or more ASCII letters (pattern 5). -/
def hasEnglishPattern (text : String) : Bool :=
  (wordRuns text).any fun w =>
    ENGLISH_STOPWORDS.contains ⟨w.map Char.toLower⟩ ||
    (decide (4 ≤ w.length) && w.all isAsciiLetter)

/-- The substitution `re.sub` of the Arabic-block-or-whitespace class
(U+0600..U+06FF and `\s`) by the empty string: drop every such character. -/
def stripArabicAndSpace (s : String) : String :=
  ⟨s.data.filter fun c => !((0x0600 ≤ c.toNat && c.toNat ≤ 0x06FF) || isSpaceChar c)⟩

/-- Models the boolean outcome of `PersonaEnforcer._detect_english`: the fixed pattern
set, then the `langdetect` oracle on the non-Arabic residue when it is
longer than 10 characters. -/
def detect_english (ld : String → Bool) (text : String) : Bool :=
  if hasEnglishPattern text then true
  else
    let residue := stripArabicAndSpace text
    if 10 < residue.data.length then ld residue else false

/-- The table `MSA_TO_JORDANIAN`, in the source dictionary's insertion order (Python
dictionaries iterate in insertion order). -/
def MSA_TO_JORDANIAN : List (String × String) :=
  [("ماذا", "شو"), ("لماذا", "ليش"), ("أين", "وين"), ("كيف حالك", "كيفك"),
   ("متى", "إيمتى"), ("هل", "هل"), ("سوف", "راح"), ("سأقوم", "راح"),
   ("أريد", "بدي"), ("أنت", "انت"), ("لديك", "عندك"), ("هل لديك", "عندك"),
   ("ذلك", "هاد"), ("هذا", "هاد"), ("جيد", "منيح"), ("ممتاز", "كتير منيح")]

/-- Models `PersonaEnforcer._convert_to_jordanian`: sequential `str.replace` over
the mapping table. -/
def convert_to_jordanian (text : String) : String :=
  MSA_TO_JORDANIAN.foldl (fun t p => pyReplace t p.1 p.2) text

/-- The marker list `JORDANIAN_MARKERS`. -/
def JORDANIAN_MARKERS : List String :=
  ["شو", "ليش", "وين", "كيفك", "راح", "عم", "بدي",
   "هيك", "منيح", "كتير", "شوي", "هسا", "بعدين",
   "يعني", "انت", "عندك", "حكيلي", "شفت", "انك"]

/-- Models `PersonaEnforcer._has_jordanian_markers`. -/
def has_jordanian_markers (text : String) : Bool :=
  decide (1 ≤ (JORDANIAN_MARKERS.filter fun m => pyContains text m).length)

/-- The tuple `(is_valid, error_message, corrected_text)` returned by
`PersonaEnforcer.enforce`. -/
structure EnforceResult where
  valid : Bool
  error : String
  corrected : String
deriving DecidableEq

/-- Models `PersonaEnforcer.enforce`: in strict mode an English detection returns
invalid with the text unchanged (and bumps a per-instance violation counter,
which no caller ever reads — the pipeline constructs a fresh enforcer per
turn — so it is not modelled); otherwise the MSA→Jordanian substitution is
applied and the substituted text returned valid (the Jordanian-marker check
only prints a warning and does not affect the result). -/
def enforce (ld : String → Bool) (text : String) (strict_mode : Bool) : EnforceResult :=
  if detect_english ld text then
    if strict_mode then
      { valid := false, error := "English detected", corrected := text }
    else
      { valid := true, error := "", corrected := convert_to_jordanian text }
  else
    { valid := true, error := "", corrected := convert_to_jordanian text }

/-- A fixed `langdetect` oracle that never reports English; in every
concrete scenario below the pattern check already decides the outcome, so
the oracle choice is immaterial there. -/
def ldFalse : String → Bool := fun _ => false

/-! ## The `InterviewAgent` model (`interview_agent.py`)

The LangGraph workflow is a straight-line pipeline
`load_context → generate_response → verify_facts → enforce_persona →
check_stage_transition`, so `process_turn` is embedded as the sequential
composition of the node functions on the state record.  The LLM completion
call is an oracle `gen : List Msg → String` returning the (stripped)
completion text; `langdetect` remains the oracle `ld`.  Wall-clock values
(`started_at`, inconsistency timestamps) are opaque to all logic and
modelled as `Nat` zero.  The `ValueError` thrown by `_load_context_node`
on an integrity failure is modelled with `Except`. -/

/-- Python `s.startswith(p)`. -/
def pyStartsWith (p s : String) : Bool := p.data.isPrefixOf s.data

/-- A chat message (`{"role": ..., "content": ...}`). -/
structure Msg where
  role : String
  content : String
deriving DecidableEq

/-- An entry of `state["detected_inconsistencies"]`. -/
structure Inconsistency where
  type : String
  turn : Nat
  original : String
  corrected : String
  error : String
  timestamp : Nat
deriving DecidableEq

/-- One entry of `InterviewAgent.STAGES`. -/
structure StageConfig where
  name : String
  goal : String
  min_questions : Nat
  next_stage : Option String
deriving DecidableEq

/-- Models `InterviewAgent.STAGES` as the lookup `self.STAGES.get(stage)`. -/
def STAGES : String → Option StageConfig := fun s =>
  match s with
  | "opening" => some
      { name := "الترحيب"
        goal := "Welcome candidate and confirm their application details"
        min_questions := 1
        next_stage := some "experience_probe" }
  | "experience_probe" => some
      { name := "استكشاف الخبرة"
        goal := "Deep dive into their experience claims"
        min_questions := 3
        next_stage := some "credibility_check" }
  | "credibility_check" => some
      { name := "فحص المصداقية"
        goal := "Verify consistency of answers"
        min_questions := 2
        next_stage := some "closing" }
  | "closing" => some
      { name := "الاختتام"
        goal := "Wrap up and set expectations"
        min_questions := 1
        next_stage := none }
  | _ => none

/-- The `InterviewState` TypedDict (keys that may be absent before first
assignment are modelled with their Python-falsy defaults). -/
structure InterviewState where
  contract : CandidateContract
  current_stage : String
  questions_asked : List String
  conversation_history : List Msg
  detected_inconsistencies : List Inconsistency
  latest_user_input : String
  latest_system_response : String
  interview_id : String
  started_at : Nat
  turn_count : Nat
deriving DecidableEq

/-- The name `stage_config.get('name', stage)` resolves to. -/
def stageName (stage : String) : String :=
  match STAGES stage with
  | some cfg => cfg.name
  | none => stage

/-- The goal `stage_config.get('goal', 'إجراء المقابلة')` resolves to. -/
def stageGoal (stage : String) : String :=
  match STAGES stage with
  | some cfg => cfg.goal
  | none => "إجراء المقابلة"

/-- Models `InterviewAgent._build_system_prompt`: the fact-constrained prompt with
the contract's facts and the stage's name and goal interpolated. -/
def build_system_prompt (c : CandidateContract) (stage : String) : String :=
  "# هويتك\nأنت سارة، مسؤولة توظيف محترفة في مخبز Golden Crust.\n\n" ++
  "# حقائق المتقدم (من قاعدة البيانات - ثابتة)\n" ++
  "⚠️ هذه الحقائق دقيقة 100% من قاعدة البيانات. استخدمها بالضبط:\n\n" ++
  "- الاسم: " ++ c.full_name ++ "\n" ++
  "- الوظيفة المطلوبة: " ++ c.target_role ++ "\n" ++
  "- عدد سنوات الخبرة: " ++ toString c.years_of_experience ++
    " سنة (بالضبط - لا تقل رقم آخر)\n" ++
  "- الراتب المتوقع: " ++ toString c.expected_salary ++ " دينار (بالضبط)\n" ++
  "- خبرة في نفس المجال: " ++ (if c.has_field_experience then "نعم" else "لا") ++ "\n" ++
  "- قرب السكن: " ++ c.proximity_to_branch.getD "غير محدد" ++ "\n\n" ++
  "# مرحلة المقابلة الحالية: " ++ stageName stage ++ "\n" ++
  "الهدف: " ++ stageGoal stage ++ "\n\n" ++
  "# قواعد صارمة\n" ++
  "1. إذا ذكرت سنوات الخبرة، قل \"" ++ toString c.years_of_experience ++
    " سنة\" - الرقم الدقيق\n" ++
  "2. استخدم اللهجة الأردنية فقط: شو، ليش، كيفك، راح، عم، بدي\n" ++
  "3. ممنوع الإنجليزية نهائياً\n" ++
  "4. الردود قصيرة: أقل من 20 كلمة\n" ++
  "5. سؤال واحد فقط في كل رد\n\n" ++
  "# أسلوب السؤال\n" ++
  "استخدم الطلب الإلكتروني كنقطة انطلاق:\n" ++
  "- \"شفت بطلبك انك كتبت...\"\n" ++
  "- \"ذكرت انك عندك " ++ toString c.years_of_experience ++
    " سنة خبرة. حدثني أكثر...\"\n\n" ++
  "⚠️ إذا خالفت القواعد، سيتم رفض ردك تلقائياً.\n"

/-- Models `InterviewAgent._load_context_node`: verify the contract's integrity,
raising `ValueError` (modelled as `Except.error`) on failure. -/
def load_context_node (s : InterviewState) : Except String InterviewState :=
  if verify_integrity s.contract then Except.ok s
  else Except.error "Contract integrity check failed - possible tampering"

/-- The message list `_generate_response_node` sends to the completion
service: system prompt, conversation history, then the latest user input
when non-empty. -/
def buildMessages (s : InterviewState) : List Msg :=
  [{ role := "system", content := build_system_prompt s.contract s.current_stage }] ++
  s.conversation_history ++
  (if s.latest_user_input ≠ "" then [{ role := "user", content := s.latest_user_input }]
   else [])

/-- Models `InterviewAgent._generate_response_node` with the completion service as
the oracle `gen`. -/
def generate_response_node (gen : List Msg → String) (s : InterviewState) : InterviewState :=
  { s with latest_system_response := gen (buildMessages s) }

/-- Models `InterviewAgent._verify_facts_node`: on an invalid verification, replace
the response with the corrected text and append one inconsistency record of
type `"llm_hallucination"`; on a valid one, leave the state untouched. -/
def verify_facts_node (s : InterviewState) : InterviewState :=
  let r := verify_response s.contract s.latest_system_response
  if r.valid then s
  else
    { s with
      latest_system_response := r.corrected.getD s.latest_system_response
      detected_inconsistencies := s.detected_inconsistencies ++
        [{ type := "llm_hallucination"
           turn := s.turn_count
           original := s.latest_system_response
           corrected := r.corrected.getD ""
           error := r.error.getD ""
           timestamp := 0 }] }

/-- Models `InterviewAgent._enforce_persona_node`: run the enforcer with
`strict_mode=False`; an invalid result only prints (the comment in the
source reads "Could regenerate or correct here"); the state's response is
set to the enforcer's corrected text when it differs. -/
def enforce_persona_node (ld : String → Bool) (s : InterviewState) : InterviewState :=
  let r := enforce ld s.latest_system_response false
  if r.corrected ≠ s.latest_system_response then
    { s with latest_system_response := r.corrected }
  else s

/-- Models `InterviewAgent._check_stage_transition_node`: count the questions
tagged with the current stage (by string prefix) and move to the declared
successor when the stage's minimum is reached. -/
def check_stage_transition_node (s : InterviewState) : InterviewState :=
  match STAGES s.current_stage with
  | none => s
  | some cfg =>
    let stage_questions := s.questions_asked.filter fun q => pyStartsWith s.current_stage q
    if cfg.min_questions ≤ stage_questions.length then
      match cfg.next_stage with
      | some ns => { s with current_stage := ns }
      | none => s
    else s

/-- The state `process_turn` initializes on the first turn. -/
def initial_state (contract : CandidateContract) : InterviewState :=
  { contract := contract
    current_stage := "opening"
    questions_asked := []
    conversation_history := []
    detected_inconsistencies := []
    latest_user_input := ""
    latest_system_response := ""
    interview_id := contract.interview_id
    started_at := 0
    turn_count := 0 }

/-- Models `InterviewAgent.process_turn`: initialize the state when absent, record
the user input, run the five-node workflow, then append the assistant
message and the `f"{stage}_q{len(...)}"` question tag. -/
def process_turn (gen : List Msg → String) (ld : String → Bool)
    (contract : CandidateContract) (user_input : String)
    (current_state : Option InterviewState) : Except String InterviewState :=
  let st0 := match current_state with
    | none => initial_state contract
    | some s => s
  let st1 := { st0 with
    latest_user_input := user_input
    turn_count := st0.turn_count + 1
    conversation_history := st0.conversation_history ++
      [{ role := "user", content := user_input }] }
  match load_context_node st1 with
  | Except.error e => Except.error e
  | Except.ok st2 =>
    let st3 := check_stage_transition_node
      (enforce_persona_node ld (verify_facts_node (generate_response_node gen st2)))
    let st4 := { st3 with
      conversation_history := st3.conversation_history ++
        [Msg.mk "assistant" st3.latest_system_response] }
    Except.ok { st4 with
      questions_asked := st4.questions_asked ++
        [st4.current_stage ++ "_q" ++ toString st4.questions_asked.length] }

/-- The specification's fixed stage order. -/
def STAGE_ORDER : List String := ["opening", "experience_probe", "credibility_check", "closing"]

/-- Position of a stage in the fixed order. -/
def stageIndex (s : String) : Nat := STAGE_ORDER.indexOf s

/-! ### Concrete states and oracles used by the theorems -/

/-- A fresh in-session state over `contractC5`. -/
def baseState : InterviewState := initial_state contractC5

/-- A state whose generated completion is entirely in English. -/
def persona_violation_state : InterviewState :=
  { baseState with latest_system_response := "the interview is good" }

/-- A state whose generated completion hallucinates 3 years of experience
against the contract's declared 5. -/
def hallucinated_state : InterviewState :=
  { baseState with latest_system_response := "عندي 3 سنوات خبرة", turn_count := 1 }

/-- A state one question into the opening stage. -/
def stageWitnessState : InterviewState :=
  { baseState with questions_asked := ["opening_q0"] }

/-- Base field values for a contract whose integrity check passes. -/
def cOKbase : CandidateContract :=
  { candidate_id := "c2", interview_id := "i2", full_name := "Huda"
    target_role := "cashier", years_of_experience := 4, expected_salary := 350
    has_field_experience := false, proximity_to_branch := none
    can_start_immediately := none, academic_status := none
    contract_created_at := 0, contract_hash := "" }

/-- A contract constructed with an explicit `contract_hash` (the validator
keeps a non-empty explicit value) equal to the digest `verify_integrity`
recomputes, so integrity verification passes and a turn can complete. -/
def cOK : CandidateContract := { cOKbase with contract_hash := verifyDigest cOKbase }

/-- A completion oracle producing a fixed clean Jordanian utterance. -/
def genW : List Msg → String := fun _ => "شو أخبارك"

/-! ## Theorems -/

/-- If `old` does not occur in `s`, one replacement pass leaves `s` unchanged. -/
theorem replaceAllAux_of_not_contains (old new : List Char) :
    ∀ (fuel : Nat) (s : List Char), containsSubAux old s = false →
      replaceAllAux old new fuel s = s := by
  intro fuel
  induction fuel with
  | zero => intro s _; rfl
  | succ n ih =>
    intro s h
    cases s with
    | nil => rfl
    | cons c rest =>
      unfold containsSubAux at h
      rw [Bool.or_eq_false_iff] at h
      unfold replaceAllAux
      rw [h.1, if_neg (by simp)]
      rw [ih rest h.2]

/-- String-level version: Python `s.replace(old, new)` is the identity when
`old` does not occur in `s`. -/
theorem pyReplace_of_not_contains (s old new : String)
    (h : pyContains s old = false) : pyReplace s old new = s := by
  unfold pyReplace
  rw [replaceAllAux_of_not_contains old.data new.data s.data.length s.data h]

/-- If no duration mention mismatches the contract, the experience loop of
`verify_response` falls through. -/
theorem expLoop_eq_none (years : Nat) (resp : String) :
    ∀ l : List (String × String), (∀ p ∈ l, expMismatch years p = false) →
      expLoop years resp l = none := by
  intro l
  induction l with
  | nil => intro _; rfl
  | cons p rest ih =>
    intro h
    obtain ⟨num, unit⟩ := p
    have h1 := h (num, unit) (List.mem_cons_self _ _)
    simp only [expLoop, h1, Bool.false_eq_true, if_false]
    exact ih fun q hq => h q (List.mem_cons_of_mem _ hq)

/-- The experience loop returns on the first mismatching duration mention,
producing exactly the `str.replace`-corrected text. -/
theorem expLoop_first (years : Nat) (resp : String) :
    ∀ (l : List (String × String)) (num unit : String),
      l.find? (expMismatch years) = some (num, unit) →
      expLoop years resp l = some
        { valid := false
          error := some ("Hallucination: LLM stated " ++ toString (digitsToNat num) ++
                         " years, DB says " ++ toString years)
          corrected := some (pyReplace resp (num ++ " " ++ unit)
                              (toString years ++ " " ++ unit)) } := by
  intro l
  induction l with
  | nil => intro num unit h; simp [List.find?] at h
  | cons p rest ih =>
    intro num unit h
    obtain ⟨n0, u0⟩ := p
    by_cases hm : expMismatch years (n0, u0) = true
    · rw [List.find?_cons_of_pos _ hm] at h
      cases h
      simp [expLoop, hm]
    · rw [List.find?_cons_of_neg _ hm] at h
      simp only [expLoop, hm, Bool.false_eq_true, if_false]
      exact ih num unit h

/-- If no currency mention is flagged, the salary loop returns
`(True, None, None)`. -/
theorem salLoop_clean (salary : Nat) (resp : String) :
    ∀ l : List (String × String), (∀ p ∈ l, salFlag salary p = false) →
      salLoop salary resp l = { valid := true, error := none, corrected := none } := by
  intro l
  induction l with
  | nil => intro _; rfl
  | cons p rest ih =>
    intro h
    obtain ⟨a, cu⟩ := p
    have h1 := h (a, cu) (List.mem_cons_self _ _)
    simp only [salLoop, h1, Bool.false_eq_true, if_false]
    exact ih fun q hq => h q (List.mem_cons_of_mem _ hq)

/-- The salary loop reports invalid exactly when some scanned currency
mention satisfies the flag condition. -/
theorem salLoop_invalid_iff (salary : Nat) (resp : String) :
    ∀ l : List (String × String),
      ((salLoop salary resp l).valid = false ↔ ∃ p ∈ l, salFlag salary p = true) := by
  intro l
  induction l with
  | nil => simp [salLoop]
  | cons p rest ih =>
    obtain ⟨a, cu⟩ := p
    by_cases hm : salFlag salary (a, cu) = true
    · constructor
      · intro _; exact ⟨(a, cu), List.mem_cons_self _ _, hm⟩
      · intro _; simp [salLoop, hm]
    · simp only [salLoop, hm, Bool.false_eq_true, if_false]
      rw [ih]
      constructor
      · rintro ⟨q, hq, hfl⟩; exact ⟨q, List.mem_cons_of_mem _ hq, hfl⟩
      · rintro ⟨q, hq, hfl⟩
        rcases List.mem_cons.mp hq with hq0 | hq1
        · exact absurd (hq0 ▸ hfl) (by simpa using hm)
        · exact ⟨q, hq1, hfl⟩

/-- The salary loop returns on the first flagged currency mention,
producing exactly the `str.replace`-corrected text. -/
theorem salLoop_first (salary : Nat) (resp : String) :
    ∀ (l : List (String × String)) (amount cur : String),
      l.find? (salFlag salary) = some (amount, cur) →
      salLoop salary resp l =
        { valid := false
          error := some ("Potential salary hallucination: stated " ++ amount ++
                         ", DB says " ++ toString salary)
          corrected := some (pyReplace resp (amount ++ " " ++ cur)
                              (toString salary ++ " " ++ cur)) } := by
  intro l
  induction l with
  | nil => intro amount cur h; simp [List.find?] at h
  | cons p rest ih =>
    intro amount cur h
    obtain ⟨a0, c0⟩ := p
    by_cases hm : salFlag salary (a0, c0) = true
    · rw [List.find?_cons_of_pos _ hm] at h
      cases h
      simp [salLoop, hm]
    · rw [List.find?_cons_of_neg _ hm] at h
      simp only [salLoop, hm, Bool.false_eq_true, if_false]
      exact ih amount cur h

/-- **C9.** An utterance with no mismatching duration mention and no
flagged currency mention verifies as `(True, None, None)`: `valid` is true
and `corrected` is `None`, the optional-field encoding of "the utterance is
left exactly as it was" (the pipeline node keeps the input utterance
unchanged in this case). -/
theorem verify_clean_utterance (c : CandidateContract) (u : String)
    (hd : ∀ p ∈ reScan true DURATION_UNITS u, expMismatch c.years_of_experience p = false)
    (hs : ∀ p ∈ reScan false SALARY_UNITS u, salFlag c.expected_salary p = false) :
    verify_response c u = { valid := true, error := none, corrected := none } := by
  unfold verify_response
  rw [expLoop_eq_none _ _ _ hd]
  exact salLoop_clean _ _ _ hs

/-- Witness for C9 at a concrete clean utterance. -/
theorem verify_clean_utterance_witness :
    verify_response contractC5 "شو أخبارك اليوم" =
      { valid := true, error := none, corrected := none } :=
  verify_clean_utterance contractC5 "شو أخبارك اليوم" (by decide) (by decide)

/-- **C3 (amended).** On the first mismatching duration mention
`(num, unit)` found by the scan, `verify_response` reports invalid and the
corrected utterance is the input with every occurrence of the substring
`num ++ " " ++ unit` (single space) replaced by the contract's value; in
particular, when the mismatched figure is not separated from its unit by
exactly one space, that substring does not occur and the "corrected"
utterance equals the input unchanged. -/
theorem verify_duration_mismatch (c : CandidateContract) (u num unit : String)
    (h : (reScan true DURATION_UNITS u).find? (expMismatch c.years_of_experience) =
          some (num, unit)) :
    (verify_response c u).valid = false ∧
    (verify_response c u).corrected =
      some (pyReplace u (num ++ " " ++ unit)
              (toString c.years_of_experience ++ " " ++ unit)) ∧
    (pyContains u (num ++ " " ++ unit) = false →
      (verify_response c u).corrected = some u) := by
  have he := expLoop_first c.years_of_experience u _ num unit h
  unfold verify_response
  rw [he]
  refine ⟨rfl, rfl, fun hnc => ?_⟩
  simp only
  rw [pyReplace_of_not_contains u _ _ hnc]

/-- **C3 (counterexample).** Against a contract declaring 7 years, the
utterance `"عندي 5سنوات خبرة"` contains the numeric mention 5 adjacent to a
duration unit (no space: the pattern's `\s*` matches the empty string), so
the claim demands a corrected utterance carrying the contract's value 7 in
place of 5 — but `verify_response` reports invalid while returning the
utterance unchanged (the `replace` argument `"5 سنوات"` with a space does
not occur), and the digit 7 appears nowhere in the "corrected" text. -/
theorem duration_mismatch_not_corrected_counterexample :
    (verify_response contractY7 "عندي 5سنوات خبرة").valid = false ∧
    (verify_response contractY7 "عندي 5سنوات خبرة").corrected = some "عندي 5سنوات خبرة" ∧
    pyContains "عندي 5سنوات خبرة" "7" = false := by decide

/-- Witness for the amended C3 at a concrete single-space mismatch: 3 is
corrected to the contract's 5 and the rest of the text is untouched. -/
theorem verify_duration_mismatch_witness :
    (verify_response contractC5 "عندي 3 سنوات خبرة").valid = false ∧
    (verify_response contractC5 "عندي 3 سنوات خبرة").corrected =
      some "عندي 5 سنوات خبرة" := by
  have h := verify_duration_mismatch contractC5 "عندي 3 سنوات خبرة" "3" "سنوات" (by decide)
  exact ⟨h.1, by rw [h.2.1]; decide⟩

/-- **C2 (amended).** When no duration mention mismatches (so the salary
scan is reached), `verify_response` flags a compensation mismatch if and
only if some scanned currency mention differs from the declared salary and
the absolute difference exceeds 100 — a fixed absolute threshold, not a
relative 50% tolerance — and on the first flagged mention the correction
substitutes the declared amount for the spoken `amount ++ " " ++ cur`
substring. -/
theorem verify_salary_absolute_threshold (c : CandidateContract) (u : String)
    (hd : ∀ p ∈ reScan true DURATION_UNITS u, expMismatch c.years_of_experience p = false) :
    ((verify_response c u).valid = false ↔
      ∃ p ∈ reScan false SALARY_UNITS u, salFlag c.expected_salary p = true) ∧
    (∀ amount cur : String,
      (reScan false SALARY_UNITS u).find? (salFlag c.expected_salary) = some (amount, cur) →
      (verify_response c u).corrected =
        some (pyReplace u (amount ++ " " ++ cur)
                (toString c.expected_salary ++ " " ++ cur))) := by
  unfold verify_response
  rw [expLoop_eq_none _ _ _ hd]
  refine ⟨salLoop_invalid_iff _ _ _, fun amount cur h => ?_⟩
  rw [salLoop_first c.expected_salary u _ amount cur h]

/-- **C2 (counterexample).** Declared salary 300, spoken amount 450: the
difference 150 is not more than 50% of the declared value (150 = 50% of
300 exactly), so the claim says no flag — yet `verify_response` flags it,
because the code's condition is the absolute `abs(spoken - declared) > 100`. -/
theorem salary_relative_tolerance_counterexample :
    (verify_response contractC5 "الراتب 450 دينار").valid = false ∧
    ¬ (((450 : Int) - (contractC5.expected_salary : Int)).natAbs * 2 >
        contractC5.expected_salary) := by decide

/-- Witness for the amended C2: 450 vs declared 300 exceeds the absolute
threshold 100, is flagged, and is substituted by the declared amount. -/
theorem verify_salary_absolute_threshold_witness :
    (verify_response contractC5 "الراتب 450 دينار").valid = false ∧
    (verify_response contractC5 "الراتب 450 دينار").corrected =
      some "الراتب 300 دينار" := by
  have h := verify_salary_absolute_threshold contractC5 "الراتب 450 دينار" (by decide)
  refine ⟨h.1.mpr ⟨("450", "دينار"), by decide, by decide⟩, ?_⟩
  rw [h.2 "450" "دينار" (by decide)]
  decide

/-- Sanity anchor: the FIPS 180-4 test vector for "abc". -/
theorem sha256hex_test_vector :
    sha256hex (asciiBytes "abc") =
      "ba7816bf8f01cfea414140de5dae2223b00361a396177a9cb410ff61f20015ad" := by decide

/-- **C1.** For a `FactContract` constructed from a declared-facts record,
`verify_integrity` called immediately after construction returns `false`,
not `true`: the construction-time digest is computed over the four core
scalar fields only, while `verify_integrity` recomputes the digest over the
full ten-field dictionary (everything except the hash and the timestamp), so
the two serializations — and hence the truncated digests — differ.  This
contradicts the function's own purpose (tamper detection on an untouched
contract) and makes `_load_context_node` abort every session. -/
theorem contract_integrity_fails_after_construction :
    verify_integrity contractC1 = false := by decide

/-- **C10.** With `strict_mode=False` — the mode `_enforce_persona_node`
actually passes — `enforce` returns `is_valid=True` for every input text
and every behaviour of the `langdetect` fallback: the only `False`-returning
statement sits behind the `strict_mode` test, so along the pipeline path the
language-violation branch is unreachable. -/
theorem enforce_nonstrict_always_valid (ld : String → Bool) (text : String) :
    (enforce ld text false).valid = true := by
  unfold enforce
  split
  · rfl
  · rfl

/-- Witness for C10 at a fully English text: even there, non-strict
enforcement reports valid. -/
theorem enforce_nonstrict_always_valid_witness :
    (enforce ldFalse "the interview is good" false).valid = true :=
  enforce_nonstrict_always_valid ldFalse "the interview is good"

/-- **C6 (amended).** `enforce` returns the substituted text whenever the
language check passes, but when the check fails (strict mode) it returns
the *original* text unsubstituted — the lexical substitution is *not*
applied on the failing path; no auto-fix of the violation is attempted in
either case. -/
theorem enforce_substitution_policy (ld : String → Bool) (text : String) (strict_mode : Bool) :
    ((enforce ld text strict_mode).valid = false →
      (enforce ld text strict_mode).corrected = text) ∧
    ((enforce ld text strict_mode).valid = true →
      (enforce ld text strict_mode).corrected = convert_to_jordanian text) := by
  unfold enforce
  split
  · cases strict_mode with
    | false => exact ⟨fun h => by simp at h, fun _ => rfl⟩
    | true => exact ⟨fun _ => rfl, fun h => by simp at h⟩
  · exact ⟨fun h => by simp at h, fun _ => rfl⟩

/-- **C6 (counterexample).** On `"ماذا the"` in strict mode (the
constructor's default), the language check fails and `enforce` returns the
original text still containing the formal `"ماذا"` — the mapping-table
substitution, which would have produced `"شو the"`, was not applied, so the
substituted text is *not* returned when the check fails. -/
theorem enforce_no_substitution_on_failure_counterexample :
    (enforce ldFalse "ماذا the" true).valid = false ∧
    (enforce ldFalse "ماذا the" true).corrected = "ماذا the" ∧
    convert_to_jordanian "ماذا the" = "شو the" := by decide

/-- Witness for the amended C6: on the strict-mode failing path the
returned text is the unsubstituted original. -/
theorem enforce_substitution_policy_witness :
    (enforce ldFalse "ماذا the" true).corrected = "ماذا the" :=
  (enforce_substitution_policy ldFalse "ماذا the" true).1 (by decide)

/-- **C4.** The persona node never regenerates and never falls back to an
apology: on a state whose generated completion is entirely English, the
node (which calls `enforce` with `strict_mode=False`, performs no LLM call,
and whose violation branch only prints) delivers the English utterance
verbatim — a violating utterance *is* delivered, contradicting the claimed
regenerate-once-then-apologize behaviour. -/
theorem persona_node_delivers_violating_utterance :
    (enforce_persona_node ldFalse persona_violation_state).latest_system_response =
      "the interview is good" ∧
    detect_english ldFalse "the interview is good" = true := by decide

/-- **C5 (amended).** When the verifier reports the completion invalid,
`_verify_facts_node` replaces the response with the corrected text and
appends exactly one inconsistency record — of kind `"llm_hallucination"`,
not `"model_hallucination"`; when the verifier reports valid, the state is
untouched. -/
theorem verify_facts_node_inconsistency (s : InterviewState) :
    ((verify_response s.contract s.latest_system_response).valid = true →
      verify_facts_node s = s) ∧
    ((verify_response s.contract s.latest_system_response).valid = false →
      ∃ rec : Inconsistency,
        (verify_facts_node s).detected_inconsistencies =
          s.detected_inconsistencies ++ [rec] ∧
        rec.type = "llm_hallucination" ∧
        (verify_facts_node s).latest_system_response =
          (verify_response s.contract s.latest_system_response).corrected.getD
            s.latest_system_response) := by
  cases hv : (verify_response s.contract s.latest_system_response).valid with
  | true =>
    exact ⟨fun _ => by simp [verify_facts_node, hv], fun h => Bool.noConfusion h⟩
  | false =>
    refine ⟨fun h => Bool.noConfusion h, fun _ => ?_⟩
    refine ⟨{ type := "llm_hallucination"
              turn := s.turn_count
              original := s.latest_system_response
              corrected := (verify_response s.contract s.latest_system_response).corrected.getD ""
              error := (verify_response s.contract s.latest_system_response).error.getD ""
              timestamp := 0 }, ?_⟩
    refine ⟨?_, rfl, ?_⟩ <;> simp [verify_facts_node, hv]

/-- **C5 (counterexample).** On a completion hallucinating 3 years against
the contract's 5, the node appends exactly one inconsistency record, and
its kind is the string `"llm_hallucination"` — not the
`"model_hallucination"` the claim states. -/
theorem inconsistency_kind_counterexample :
    (verify_response hallucinated_state.contract
        hallucinated_state.latest_system_response).valid = false ∧
    ((verify_facts_node hallucinated_state).detected_inconsistencies.map
        fun r => r.type) = ["llm_hallucination"] ∧
    "llm_hallucination" ≠ "model_hallucination" := by decide

/-- Witness for the amended C5 at the concrete hallucinating state. -/
theorem verify_facts_node_inconsistency_witness :
    ∃ rec : Inconsistency,
      (verify_facts_node hallucinated_state).detected_inconsistencies =
        hallucinated_state.detected_inconsistencies ++ [rec] ∧
      rec.type = "llm_hallucination" ∧
      (verify_facts_node hallucinated_state).latest_system_response =
        (verify_response hallucinated_state.contract
            hallucinated_state.latest_system_response).corrected.getD
          hallucinated_state.latest_system_response :=
  (verify_facts_node_inconsistency hallucinated_state).2 (by decide)

/-- **C7.** The stage-transition node advances exactly when the count of
questions tagged with the current stage reaches the stage's declared
minimum and the stage has a declared successor; it moves only to that
successor — one step forward in the fixed order, never backward, never
skipping — and the terminal `closing` stage is a no-op. -/
theorem stage_transition_rule (st : InterviewState) (cfg : StageConfig)
    (h : STAGES st.current_stage = some cfg) :
    ((check_stage_transition_node st).current_stage ≠ st.current_stage ↔
      (cfg.min_questions ≤
        (st.questions_asked.filter fun q => pyStartsWith st.current_stage q).length ∧
       cfg.next_stage ≠ none)) ∧
    (cfg.min_questions ≤
        (st.questions_asked.filter fun q => pyStartsWith st.current_stage q).length →
      (check_stage_transition_node st).current_stage =
        cfg.next_stage.getD st.current_stage) ∧
    ((st.questions_asked.filter fun q => pyStartsWith st.current_stage q).length <
        cfg.min_questions →
      check_stage_transition_node st = st) ∧
    stageIndex st.current_stage ≤ stageIndex (check_stage_transition_node st).current_stage ∧
    stageIndex (check_stage_transition_node st).current_stage ≤
      stageIndex st.current_stage + 1 ∧
    (st.current_stage = "closing" → check_stage_transition_node st = st) := by
  unfold STAGES at h
  split at h
  case _ heq =>
    cases h
    simp only [check_stage_transition_node, heq, STAGES]
    by_cases hc : 1 ≤ (st.questions_asked.filter fun q => pyStartsWith "opening" q).length
    · simp only [if_pos hc]
      exact ⟨⟨fun _ => ⟨hc, by decide⟩, fun _ => by decide⟩, fun _ => rfl,
             fun hlt => absurd hc (by omega), by decide, by decide,
             fun hcl => absurd hcl (by decide)⟩
    · simp only [if_neg hc]
      exact ⟨⟨fun hne0 => absurd heq hne0, fun hr => absurd hr.1 hc⟩,
             fun hcc => absurd hcc hc, fun _ => trivial,
             by rw [heq], by rw [heq]; decide, fun _ => trivial⟩
  case _ heq =>
    cases h
    simp only [check_stage_transition_node, heq, STAGES]
    by_cases hc : 3 ≤ (st.questions_asked.filter fun q => pyStartsWith "experience_probe" q).length
    · simp only [if_pos hc]
      exact ⟨⟨fun _ => ⟨hc, by decide⟩, fun _ => by decide⟩, fun _ => rfl,
             fun hlt => absurd hc (by omega), by decide, by decide,
             fun hcl => absurd hcl (by decide)⟩
    · simp only [if_neg hc]
      exact ⟨⟨fun hne0 => absurd heq hne0, fun hr => absurd hr.1 hc⟩,
             fun hcc => absurd hcc hc, fun _ => trivial,
             by rw [heq], by rw [heq]; decide, fun _ => trivial⟩
  case _ heq =>
    cases h
    simp only [check_stage_transition_node, heq, STAGES]
    by_cases hc : 2 ≤ (st.questions_asked.filter fun q => pyStartsWith "credibility_check" q).length
    · simp only [if_pos hc]
      exact ⟨⟨fun _ => ⟨hc, by decide⟩, fun _ => by decide⟩, fun _ => rfl,
             fun hlt => absurd hc (by omega), by decide, by decide,
             fun hcl => absurd hcl (by decide)⟩
    · simp only [if_neg hc]
      exact ⟨⟨fun hne0 => absurd heq hne0, fun hr => absurd hr.1 hc⟩,
             fun hcc => absurd hcc hc, fun _ => trivial,
             by rw [heq], by rw [heq]; decide, fun _ => trivial⟩
  case _ heq =>
    cases h
    simp only [check_stage_transition_node, heq, STAGES, ite_self]
    exact ⟨⟨fun hne0 => absurd rfl hne0, fun hr => absurd rfl hr.2⟩,
           fun _ => rfl, fun _ => trivial,
           by decide, by decide, fun _ => trivial⟩
  case _ =>
    cases h

/-- Witness for C7: one question into the opening stage (minimum 1), the
node advances to `experience_probe`. -/
theorem stage_transition_rule_witness :
    (check_stage_transition_node stageWitnessState).current_stage = "experience_probe" := by
  have h := (stage_transition_rule stageWitnessState
      { name := "الترحيب"
        goal := "Welcome candidate and confirm their application details"
        min_questions := 1
        next_stage := some "experience_probe" } (by decide)).2.1 (by decide)
  simpa using h

/-- Each record update performed by `_generate_response_node` leaves the
embedded contract untouched. -/
theorem generate_response_preserves_contract (gen : List Msg → String) (s : InterviewState) :
    (generate_response_node gen s).contract = s.contract := rfl

/-- The fact-verification node leaves the embedded contract untouched. -/
theorem verify_facts_preserves_contract (s : InterviewState) :
    (verify_facts_node s).contract = s.contract := by
  cases hv : (verify_response s.contract s.latest_system_response).valid <;>
    simp [verify_facts_node, hv]

/-- The persona node leaves the embedded contract untouched. -/
theorem enforce_persona_preserves_contract (ld : String → Bool) (s : InterviewState) :
    (enforce_persona_node ld s).contract = s.contract := by
  simp only [enforce_persona_node]
  split <;> rfl

/-- The stage-transition node leaves the embedded contract untouched. -/
theorem stage_transition_preserves_contract (s : InterviewState) :
    (check_stage_transition_node s).contract = s.contract := by
  simp only [check_stage_transition_node]
  split
  · rfl
  · split
    · split <;> rfl
    · rfl

/-- A successful `_load_context_node` returns the state unchanged. -/
theorem load_context_ok_id (s s2 : InterviewState) :
    load_context_node s = Except.ok s2 → s2 = s := by
  unfold load_context_node
  split
  · intro h; cases h; rfl
  · intro h; cases h

/-- The four-node generate→verify→enforce→advance pipeline leaves the
embedded contract untouched. -/
theorem pipeline_preserves_contract (gen : List Msg → String) (ld : String → Bool)
    (s : InterviewState) :
    (check_stage_transition_node (enforce_persona_node ld (verify_facts_node
      (generate_response_node gen s)))).contract = s.contract := by
  rw [stage_transition_preserves_contract, enforce_persona_preserves_contract,
      verify_facts_preserves_contract, generate_response_preserves_contract]

/-- **C8.** No operation of the engine mutates the embedded contract: each
pipeline node returns a state whose contract equals the input state's, and
a completed `process_turn` returns a state whose contract equals the one it
started from (the given state's contract, or the passed contract on the
first turn). -/
theorem contract_never_mutated (gen : List Msg → String) (ld : String → Bool)
    (s st2 st' : InterviewState) (c : CandidateContract) (u : String)
    (os : Option InterviewState) :
    (generate_response_node gen s).contract = s.contract ∧
    (verify_facts_node s).contract = s.contract ∧
    (enforce_persona_node ld s).contract = s.contract ∧
    (check_stage_transition_node s).contract = s.contract ∧
    (load_context_node s = Except.ok st2 → st2.contract = s.contract) ∧
    (process_turn gen ld c u os = Except.ok st' →
      st'.contract = (os.map fun s0 => s0.contract).getD c) := by
  refine ⟨generate_response_preserves_contract gen s,
          verify_facts_preserves_contract s,
          enforce_persona_preserves_contract ld s,
          stage_transition_preserves_contract s,
          fun h => by rw [load_context_ok_id s st2 h],
          fun h => ?_⟩
  unfold process_turn at h
  cases os with
  | none =>
    dsimp only at h
    split at h
    · exact Except.noConfusion h
    · rename_i st2x heq
      injection h with h3
      have hid := load_context_ok_id _ _ heq
      subst hid
      rw [← h3]
      exact pipeline_preserves_contract gen ld _
  | some s0 =>
    dsimp only at h
    split at h
    · exact Except.noConfusion h
    · rename_i st2x heq
      injection h with h3
      have hid := load_context_ok_id _ _ heq
      subst hid
      rw [← h3]
      exact pipeline_preserves_contract gen ld _

/-- Witness for C8: a full first turn over `cOK` (whose integrity check
passes) completes and returns a state still carrying `cOK` unchanged. -/
theorem contract_never_mutated_witness :
    ∃ st' : InterviewState,
      process_turn genW ldFalse cOK "مرحبا" none = Except.ok st' ∧
      st'.contract = cOK := by
  cases h : process_turn genW ldFalse cOK "مرحبا" none with
  | error e =>
    have hok : (process_turn genW ldFalse cOK "مرحبا" none).isOk = true := by decide
    rw [h] at hok
    simp [Except.isOk, Except.toBool] at hok
  | ok st' =>
    refine ⟨st', rfl, ?_⟩
    have hc := (contract_never_mutated genW ldFalse st' st' st' cOK "مرحبا" none).2.2.2.2.2 h
    simpa using hc

end SarahHR
